import Mathlib

/-
  Verification of the sonica-backend order / inventory / delivery lifecycle.

  Shallow embedding of the Express route handlers and Mongoose models:
  * Product stock counters are JS numbers, modelled as `Int` (the `$inc`
    update operator does not run the schema's `min: 0` validators, so the
    stored values can in fact go negative).
  * Each route handler is translated into a pure state transformer on an
    explicit world state; external collaborators (HMAC signature check,
    Razorpay payment fetch, clocks) enter as parameters.
  * Fallible handlers return their error through an `Except`-style result
    while also returning the (possibly unchanged) state.
-/

namespace Sonica

/-! ## Data model (src/models: Product, Order) -/

/-- The `status` enum of `orderSchema` (src/models/Order). -/
inductive OrderStatus
  | created | paid | packed | shipped | delivered | completed | cancelled
deriving DecidableEq, Repr, Inhabited

/-- The string stored for an order status (statusHistory stores plain strings). -/
def OrderStatus.str : OrderStatus → String
  | .created => "created"
  | .paid => "paid"
  | .packed => "packed"
  | .shipped => "shipped"
  | .delivered => "delivered"
  | .completed => "completed"
  | .cancelled => "cancelled"

/-- The `payment.status` enum of `orderSchema`. -/
inductive PaymentStatus
  | pending | completed | failed | refunded
deriving DecidableEq, Repr, Inhabited

/-- Product document: the fields relevant to the stock-reservation ledger
(src/models/Product).  `stock` and `reservedStock` are JS numbers mutated via
`$inc` / direct writes; `$inc` bypasses the schema `min: 0` validator, so they
are modelled as unconstrained integers. -/
structure Product where
  name : String
  stock : Int
  reservedStock : Int
deriving DecidableEq, Repr

/-- Virtual `availableStock` of `productSchema`: `stock - reservedStock`. -/
def Product.availableStock (p : Product) : Int :=
  p.stock - p.reservedStock

/-- One element of `orderSchema.items` (`orderItemSchema`). -/
structure OrderItem where
  product : Nat
  name : String
  quantity : Int
  price : Int
deriving DecidableEq, Repr

/-- One populated cart line as seen by `POST /api/orders`: a product
reference, the quantity, and the price snapshot taken at add-to-cart time. -/
structure CartItem where
  product : Nat
  quantity : Int
  price : Int
deriving DecidableEq, Repr

/-- One element of `orderSchema.statusHistory`.  The stored `status` is a
plain string (the webhook pushes `"refunded"`, which is not an order status). -/
structure StatusEntry where
  status : String
  note : Option String
  updatedBy : Option Nat
deriving DecidableEq, Repr

/-- The `orderSchema.payment` sub-document. -/
structure Payment where
  razorpayOrderId : Option String
  razorpayPaymentId : Option String
  razorpaySignature : Option String
  method : Option String
  status : PaymentStatus
  paidAt : Option Nat
deriving DecidableEq, Repr, Inhabited

/-- The default `payment` sub-document of a fresh order. -/
def Payment.pendingDefault : Payment :=
  ⟨none, none, none, none, .pending, none⟩

/-- Order document (src/models/Order), restricted to the fields the
lifecycle routes read or write.  `delivery` sub-document fields are inlined. -/
structure Order where
  user : Nat
  orderNumber : Option String
  items : List OrderItem
  status : OrderStatus
  payment : Payment
  deliveryPartner : Option Nat
  deliveryEstimatedDate : Option Nat
  deliveryActualDate : Option Nat
  totalAmount : Int
  statusHistory : List StatusEntry
  cancellationReason : Option String
deriving DecidableEq, Repr, Inhabited

/-! ## Error taxonomy of the routes -/

/-- The business-rule failures the modelled routes can answer with. -/
inductive ApiErr
  | emptyCart
  | insufficientStock
  | invalidTransition
  | forbidden
  | notFound
  | signatureMismatch
  | duplicateKey
  | duplicateReview
deriving DecidableEq, Repr

/-- The HTTP status code each failure is answered with. -/
def ApiErr.httpStatus : ApiErr → Nat
  | .emptyCart => 400
  | .insufficientStock => 400
  | .invalidTransition => 400
  | .forbidden => 403
  | .notFound => 404
  | .signatureMismatch => 400
  | .duplicateKey => 400
  | .duplicateReview => 400

/-! ## Stock ledger: the product collection -/

/-- The Product collection, as a total map from product id to document
(the routes under study only touch products that exist). -/
structure StockDB where
  products : Nat → Product

/-- Model of `Product.findByIdAndUpdate(pid, ...)`: rewrite one document in place. -/
def StockDB.updateAt (db : StockDB) (pid : Nat) (f : Product → Product) : StockDB :=
  ⟨fun i => if i = pid then f (db.products i) else db.products i⟩

/-- The reservation loop of `POST /api/orders`:
`Product.findByIdAndUpdate(item.product._id, { $inc: { reservedStock: item.quantity } })`
for each cart item in order. -/
def reserveAll (items : List CartItem) (db : StockDB) : StockDB :=
  items.foldl
    (fun db it =>
      db.updateAt it.product (fun p => { p with reservedStock := p.reservedStock + it.quantity }))
    db

/-- The release loop of `POST /api/orders/:id/cancel`:
`$inc: { reservedStock: -item.quantity }` for each order item. -/
def releaseAll (items : List OrderItem) (db : StockDB) : StockDB :=
  items.foldl
    (fun db it =>
      db.updateAt it.product (fun p => { p with reservedStock := p.reservedStock - it.quantity }))
    db

/-- The commit loop of `POST /api/payments/verify`:
`$inc: { stock: -item.quantity, reservedStock: -item.quantity }` per item. -/
def commitAll (items : List OrderItem) (db : StockDB) : StockDB :=
  items.foldl
    (fun db it =>
      db.updateAt it.product
        (fun p => { p with stock := p.stock - it.quantity,
                           reservedStock := p.reservedStock - it.quantity }))
    db

/-! ## Order routes (src/routes/orders.js) -/

/-- Result of `POST /api/orders`: the product collection afterwards, and the
created order or the error response. -/
structure CreateOut where
  db : StockDB
  res : Except ApiErr Order

/-- The per-line stock check of `POST /api/orders`:
`item.quantity > product.stock - product.reservedStock`. -/
def insufficientLine (db : StockDB) (it : CartItem) : Bool :=
  (db.products it.product).availableStock < it.quantity

/-- Handler of `POST /api/orders` (create order from cart), for an existing user cart
whose lines are already populated with their product documents.
The handler:
1. rejects an empty cart;
2. walks every cart line and rejects with `InsufficientStock` (HTTP 400) at
   the first line whose `quantity` exceeds `product.stock - product.reservedStock`;
3. only then runs the reservation loop (`$inc reservedStock`), snapshots the
   items, and creates the order with status `created` and one
   `statusHistory` entry `{ status: 'created', note: 'Order placed' }`. -/
def createOrder (userId : Nat) (cartItems : List CartItem) (cartTotal : Int)
    (db : StockDB) : CreateOut :=
  if cartItems.isEmpty then
    ⟨db, .error .emptyCart⟩
  else
    match cartItems.find? (insufficientLine db) with
    | some _ => ⟨db, .error .insufficientStock⟩
    | none =>
      let db' := reserveAll cartItems db
      let orderItems := cartItems.map (fun it =>
        OrderItem.mk it.product (db.products it.product).name it.quantity it.price)
      let order : Order :=
        { user := userId
          orderNumber := none
          items := orderItems
          status := .created
          payment := Payment.pendingDefault
          deliveryPartner := none
          deliveryEstimatedDate := none
          deliveryActualDate := none
          totalAmount := cartTotal
          statusHistory := [⟨"created", some "Order placed", none⟩]
          cancellationReason := none }
      ⟨db', .ok order⟩

/-- World state shared by the routes that read one order document and the
product collection. -/
structure World where
  products : StockDB
  order : Order

/-- Result of a route that mutates (or refuses to mutate) an existing order. -/
structure HandlerOut where
  world : World
  res : Except ApiErr Unit

/-- Handler of `POST /api/payments/verify` (src/routes/payments.js).
`sigValid` is the outcome of the HMAC-SHA256 comparison
`expectedSignature === razorpay_signature`; `method` is what
`razorpay.payments.fetch` reports; `now` models `new Date()`.
On a valid signature the handler unconditionally (no re-processing guard):
overwrites `order.payment`, sets `order.status = 'paid'`, pushes a
statusHistory entry, and runs the commit loop over `order.items`. -/
def verifyPayment (sigValid : Bool) (roid rpid rsig method : String)
    (now actor : Nat) (w : World) : HandlerOut :=
  if !sigValid then
    ⟨w, .error .signatureMismatch⟩
  else
    let o := w.order
    let o' : Order :=
      { o with
        payment := ⟨some roid, some rpid, some rsig, some method, .completed, some now⟩
        status := .paid
        statusHistory := o.statusHistory ++
          [⟨"paid", some ("Payment completed via " ++ method), some actor⟩] }
    ⟨⟨commitAll o.items w.products, o'⟩, .ok ()⟩

/-- The `nonCancellable` list of `POST /api/orders/:id/cancel`. -/
def nonCancellable : List OrderStatus :=
  [.shipped, .delivered, .completed, .cancelled]

/-- Handler of `POST /api/orders/:id/cancel`.  Here `authorized` is the outcome of the
admin-or-owner check.  If the order status is in `nonCancellable` the request
fails with HTTP 400 and nothing changes; otherwise every item's
`reservedStock` is decremented by `$inc` (no clamping at zero), the status
becomes `cancelled`, the reason is recorded and a history entry pushed. -/
def cancelOrder (authorized : Bool) (reason : Option String) (actor : Nat)
    (w : World) : HandlerOut :=
  if !authorized then
    ⟨w, .error .forbidden⟩
  else if w.order.status ∈ nonCancellable then
    ⟨w, .error .invalidTransition⟩
  else
    let db' := releaseAll w.order.items w.products
    let o' : Order :=
      { w.order with
        status := .cancelled
        cancellationReason := reason
        statusHistory := w.order.statusHistory ++
          [⟨"cancelled", some (reason.getD "Order cancelled"), some actor⟩] }
    ⟨⟨db', o'⟩, .ok ()⟩

/-- Handler of `PUT /api/orders/:id/status` (admin).  The target status has already
passed the `validStatuses.includes(status)` check (it is a member of the
enum).  The handler only sets `order.status` and pushes a history entry:
it never touches any Product document. -/
def adminUpdateStatus (status : OrderStatus) (note : Option String)
    (actor : Nat) (w : World) : World :=
  { w with
    order :=
      { w.order with
        status := status
        statusHistory := w.order.statusHistory ++ [⟨status.str, note, some actor⟩] } }

/-- The `payment.captured` branch of `POST /api/payments/webhook`
(signature already verified, order found by `payment.razorpayOrderId`).
If the payment is not yet `completed` it updates the order's payment fields
and sets `order.status = 'paid'`; it never touches any Product document and
pushes no statusHistory entry. -/
def webhookCaptured (paymentId method : String) (now : Nat) (w : World) : World :=
  if w.order.payment.status ≠ .completed then
    { w with
      order :=
        { w.order with
          payment :=
            { w.order.payment with
              status := .completed
              razorpayPaymentId := some paymentId
              method := some method
              paidAt := some now }
          status := .paid } }
  else
    w

/-! ## Concrete executions used to check the stock-counter claims -/

/-- Decidable equality of handler results, for evaluating concrete runs. -/
instance instDecEqExcept {ε α : Type} [DecidableEq ε] [DecidableEq α] :
    DecidableEq (Except ε α)
  | .ok a, .ok b =>
    if h : a = b then .isTrue (by rw [h]) else .isFalse (by intro he; cases he; exact h rfl)
  | .error a, .error b =>
    if h : a = b then .isTrue (by rw [h]) else .isFalse (by intro he; cases he; exact h rfl)
  | .ok _, .error _ => .isFalse (by intro he; cases he)
  | .error _, .ok _ => .isFalse (by intro he; cases he)

/-- A catalog holding one bicycle with `stock = 5`, `reservedStock = 0`. -/
def c1DB0 : StockDB := ⟨fun _ => ⟨"Bike", 5, 0⟩⟩

/-- Checkout of a cart with one line: product 0, quantity 3, price 100. -/
def c1Create : CreateOut := createOrder 1 [⟨0, 3, 100⟩] 300 c1DB0

/-- The order created by `c1Create` (checkout succeeds on this input). -/
def c1Order : Order :=
  match c1Create.res with
  | .ok o => o
  | .error _ => default

/-- Call of `POST /api/payments/verify` with a valid signature on the created order. -/
def c1AfterVerify : HandlerOut :=
  verifyPayment true "ro" "rp" "rs" "card" 10 9 ⟨c1Create.db, c1Order⟩

/-- Call of `POST /api/orders/:id/cancel` on the now-`paid` order. -/
def c1AfterCancel : HandlerOut :=
  cancelOrder true (some "changed mind") 9 c1AfterVerify.world

/-- An order of 3 units already reserved against a product with
`stock = 5, reservedStock = 3`, awaiting payment. -/
def c3World0 : World :=
  ⟨⟨fun _ => ⟨"Bike", 5, 3⟩⟩,
   { user := 1
     orderNumber := some "SON-1-0001"
     items := [⟨0, "Bike", 3, 100⟩]
     status := .created
     payment := Payment.pendingDefault
     deliveryPartner := none
     deliveryEstimatedDate := none
     deliveryActualDate := none
     totalAmount := 300
     statusHistory := [⟨"created", some "Order placed", none⟩]
     cancellationReason := none }⟩

/-- First `POST /api/payments/verify` call (valid signature). -/
def c3Verify1 : HandlerOut := verifyPayment true "ro" "rp" "rs" "card" 10 9 c3World0

/-- Second, identical `POST /api/payments/verify` call on the resulting state. -/
def c3Verify2 : HandlerOut := verifyPayment true "ro" "rp" "rs" "card" 11 9 c3Verify1.world

/-! ## Fold lemmas for the stock loops -/

/-- Total quantity the release loop subtracts from product `pid`:
the sum of the quantities of the order lines that reference `pid`. -/
def releasedQty (items : List OrderItem) (pid : Nat) : Int :=
  ((items.filter (fun it => it.product = pid)).map (fun it => it.quantity)).sum

/-- Effect of the cancel route's release loop on each product: `reservedStock`
drops by the total quantity of the lines naming that product, while `stock`
and `name` are untouched. -/
theorem releaseAll_spec (items : List OrderItem) (db : StockDB) (pid : Nat) :
    ((releaseAll items db).products pid).reservedStock
        = (db.products pid).reservedStock - releasedQty items pid ∧
    ((releaseAll items db).products pid).stock = (db.products pid).stock ∧
    ((releaseAll items db).products pid).name = (db.products pid).name := by
  induction items generalizing db with
  | nil => simp [releaseAll, releasedQty]
  | cons it rest ih =>
    have hstep :
        releaseAll (it :: rest) db
          = releaseAll rest
              (db.updateAt it.product
                (fun p => { p with reservedStock := p.reservedStock - it.quantity })) := by
      simp [releaseAll]
    rw [hstep]
    rcases ih (db.updateAt it.product
        (fun p => { p with reservedStock := p.reservedStock - it.quantity })) with ⟨h1, h2, h3⟩
    by_cases h : it.product = pid
    · subst h
      refine ⟨?_, ?_, ?_⟩
      · rw [h1]; simp [StockDB.updateAt, releasedQty]; ring
      · rw [h2]; simp [StockDB.updateAt]
      · rw [h3]; simp [StockDB.updateAt]
    · refine ⟨?_, ?_, ?_⟩
      · rw [h1]; simp [StockDB.updateAt, releasedQty, h, Ne.symm h]
      · rw [h2]; simp [StockDB.updateAt, Ne.symm h]
      · rw [h3]; simp [StockDB.updateAt, Ne.symm h]

end Sonica

namespace Sonica

/-- C1.  The stock invariant `0 ≤ reservedStock ≤ stock` is NOT preserved by
the implemented operations: starting from the reachable state `stock = 5,
reservedStock = 0`, the sequence checkout (reserve 3) → payment verification
(commit 3) → order cancellation (release 3) is accepted end to end — `paid`
is a cancellable status — and the cancel route's unconditional
`$inc: { reservedStock: -quantity }` drives `reservedStock` to `-3 < 0`,
contradicting both the spec invariant and the schema's own `min: 0`. -/
theorem cancel_after_payment_drives_reservedStock_negative :
    c1Create.res = .ok c1Order ∧
    c1AfterVerify.res = .ok () ∧
    c1AfterCancel.res = .ok () ∧
    (c1AfterVerify.world.products.products 0).reservedStock = 0 ∧
    (c1AfterCancel.world.products.products 0).reservedStock = -3 ∧
    ¬ (0 ≤ (c1AfterCancel.world.products.products 0).reservedStock) := by
  decide

/-- C2.  `POST /api/orders` validates `quantity ≤ availableStock` for every
cart line before reserving anything: whenever some line of a (necessarily
non-empty) cart exceeds the available stock of its product, the request is
answered with `InsufficientStock` (HTTP 400) and the product collection —
in particular every `reservedStock` counter — is returned unchanged. -/
theorem checkout_validates_all_lines_before_reserving
    (userId : Nat) (cartItems : List CartItem) (cartTotal : Int) (db : StockDB)
    (it : CartItem) (hmem : it ∈ cartItems)
    (hfail : (db.products it.product).availableStock < it.quantity) :
    (createOrder userId cartItems cartTotal db).res = .error .insufficientStock ∧
    (createOrder userId cartItems cartTotal db).db = db ∧
    ApiErr.insufficientStock.httpStatus = 400 := by
  have hne : cartItems.isEmpty = false := by
    cases cartItems with
    | nil => cases hmem
    | cons a l => rfl
  have hp : insufficientLine db it = true := by
    simpa [insufficientLine] using hfail
  cases hfind : cartItems.find? (insufficientLine db) with
  | none =>
    exact absurd hp (by simpa using List.find?_eq_none.mp hfind it hmem)
  | some x =>
    refine ⟨?_, ?_, rfl⟩ <;> simp [createOrder, hne, hfind]

/-- Witness for C2: a one-line cart asking for 7 units of a product with 5
available is rejected with `InsufficientStock` and leaves the catalog as is. -/
theorem checkout_validates_all_lines_before_reserving_witness :
    (createOrder 1 [⟨0, 7, 100⟩] 700 ⟨fun _ => ⟨"Bike", 5, 0⟩⟩).res
        = .error .insufficientStock ∧
    (createOrder 1 [⟨0, 7, 100⟩] 700 ⟨fun _ => ⟨"Bike", 5, 0⟩⟩).db
        = ⟨fun _ => ⟨"Bike", 5, 0⟩⟩ ∧
    ApiErr.insufficientStock.httpStatus = 400 :=
  checkout_validates_all_lines_before_reserving 1 [⟨0, 7, 100⟩] 700
    ⟨fun _ => ⟨"Bike", 5, 0⟩⟩ ⟨0, 7, 100⟩ (by decide) (by decide)

/-- C4.  `POST /api/orders/:id/cancel` (authorized caller): if the order's
status is `shipped`, `delivered`, `completed` or `cancelled` the request fails
with `InvalidTransition` (HTTP 400) and the whole state (order and products)
is returned unchanged; otherwise (status `created`, `paid` or `packed`) it
succeeds, the status becomes `cancelled`, the cancellation reason is recorded,
a `statusHistory` entry is appended, and each product's `reservedStock`
decreases by the total quantity of the order lines naming it, with `stock`
untouched. -/
theorem cancel_guard_and_release_effects (w : World) (reason : String) (actor : Nat) :
    (w.order.status ∈ nonCancellable →
        cancelOrder true (some reason) actor w = ⟨w, .error .invalidTransition⟩ ∧
        ApiErr.invalidTransition.httpStatus = 400) ∧
    (w.order.status ∉ nonCancellable →
        (cancelOrder true (some reason) actor w).res = .ok () ∧
        (cancelOrder true (some reason) actor w).world.order.status = .cancelled ∧
        (cancelOrder true (some reason) actor w).world.order.cancellationReason
            = some reason ∧
        (cancelOrder true (some reason) actor w).world.order.statusHistory
            = w.order.statusHistory ++ [⟨"cancelled", some reason, some actor⟩] ∧
        ∀ pid,
          ((cancelOrder true (some reason) actor w).world.products.products pid).reservedStock
              = (w.products.products pid).reservedStock - releasedQty w.order.items pid ∧
          ((cancelOrder true (some reason) actor w).world.products.products pid).stock
              = (w.products.products pid).stock) := by
  constructor
  · intro h
    exact ⟨by simp [cancelOrder, h], rfl⟩
  · intro h
    refine ⟨by simp [cancelOrder, h], by simp [cancelOrder, h], by simp [cancelOrder, h],
      by simp [cancelOrder, h], fun pid => ⟨?_, ?_⟩⟩
    · simpa [cancelOrder, h] using (releaseAll_spec w.order.items w.products pid).1
    · simpa [cancelOrder, h] using (releaseAll_spec w.order.items w.products pid).2.1

/-- A `created` order of 2 units of product 0, reserved against a catalog
with `stock = 5, reservedStock = 2`. -/
def c4World0 : World :=
  ⟨⟨fun _ => ⟨"Bike", 5, 2⟩⟩,
   { user := 1
     orderNumber := some "SON-1-0001"
     items := [⟨0, "Bike", 2, 100⟩]
     status := .created
     payment := Payment.pendingDefault
     deliveryPartner := none
     deliveryEstimatedDate := none
     deliveryActualDate := none
     totalAmount := 200
     statusHistory := [⟨"created", some "Order placed", none⟩]
     cancellationReason := none }⟩

/-- Witness for C4: cancelling the `created` order above succeeds, records the
reason, appends a history entry and releases the 2 reserved units. -/
theorem cancel_guard_and_release_effects_witness :
    (cancelOrder true (some "changed mind") 9 c4World0).res = .ok () ∧
    (cancelOrder true (some "changed mind") 9 c4World0).world.order.status = .cancelled ∧
    (cancelOrder true (some "changed mind") 9 c4World0).world.order.cancellationReason
        = some "changed mind" ∧
    (cancelOrder true (some "changed mind") 9 c4World0).world.order.statusHistory
        = c4World0.order.statusHistory ++ [⟨"cancelled", some "changed mind", some 9⟩] ∧
    ((cancelOrder true (some "changed mind") 9 c4World0).world.products.products 0).reservedStock
        = (c4World0.products.products 0).reservedStock - releasedQty c4World0.order.items 0 := by
  have h := (cancel_guard_and_release_effects c4World0 "changed mind" 9).2 (by decide)
  exact ⟨h.1, h.2.1, h.2.2.1, h.2.2.2.1, (h.2.2.2.2 0).1⟩

/-- C3.  Committing reserved stock on payment confirmation is NOT idempotent:
`POST /api/payments/verify` performs no `payment.status` (or any other
re-processing) guard, so a second call with the same valid signature runs the
commit loop again.  On `stock = 5, reservedStock = 3` with a 3-unit order, the
first call leaves `stock = 2, reservedStock = 0`; the second call succeeds as
well and double-decrements to `stock = -1, reservedStock = -3`. -/
theorem double_verify_double_decrements_stock :
    c3Verify1.res = .ok () ∧
    c3Verify2.res = .ok () ∧
    (c3Verify1.world.products.products 0).stock = 2 ∧
    (c3Verify1.world.products.products 0).reservedStock = 0 ∧
    (c3Verify2.world.products.products 0).stock = -1 ∧
    (c3Verify2.world.products.products 0).reservedStock = -3 := by
  decide

end Sonica

namespace Sonica

/-! ## Delivery state machine (src/routes/delivery.js, src/models/Delivery) -/

/-- The `status` enum of the Delivery document. -/
inductive DeliveryStatus
  | assigned | picked | inTransit | outForDelivery | delivered | failed
deriving DecidableEq, Repr, Inhabited

/-- The string form of a delivery status (as stored / interpolated). -/
def DeliveryStatus.str : DeliveryStatus → String
  | .assigned => "assigned"
  | .picked => "picked"
  | .inTransit => "in_transit"
  | .outForDelivery => "out_for_delivery"
  | .delivered => "delivered"
  | .failed => "failed"

/-- One element of the Delivery `statusHistory` (the routes push explicit
`timestamp: new Date()` values). -/
structure DeliveryEntry where
  status : DeliveryStatus
  location : Option String
  note : Option String
  timestamp : Nat
deriving DecidableEq, Repr

/-- Delivery document, restricted to the fields the two transition routes
read or write. -/
structure Delivery where
  order : Nat
  partner : Nat
  status : DeliveryStatus
  estimatedDate : Option Nat
  actualDeliveryDate : Option Nat
  customerSignature : Option String
  proofOfDelivery : Option String
  statusHistory : List DeliveryEntry
deriving DecidableEq, Repr

/-- Result of a delivery route: the delivery, the parent order as far as it
exists (`Order.findById(delivery.order)` may return null), and the response. -/
structure DeliveryOut where
  delivery : Delivery
  order : Option Order
  res : Except ApiErr Unit

/-- Handler of `PUT /api/delivery/:id/status`.  Here `authorized` is the partner-or-admin
check; the target status has passed the `validStatuses` check.  The handler
sets the delivery status, pushes a delivery history entry, and — when the
parent order exists — projects onto `order.status`
(`picked → packed`, `in_transit`/`out_for_delivery → shipped`,
`delivered → delivered` + stamps `actualDeliveryDate`) and pushes an order
history entry recording the new order status. -/
def updateDeliveryStatus (authorized : Bool) (newStatus : DeliveryStatus)
    (note location : Option String) (now actor : Nat)
    (d : Delivery) (orderOpt : Option Order) : DeliveryOut :=
  if !authorized then
    ⟨d, orderOpt, .error .forbidden⟩
  else
    let d1 : Delivery :=
      { d with status := newStatus
               statusHistory := d.statusHistory ++ [⟨newStatus, location, note, now⟩] }
    match orderOpt with
    | none => ⟨d1, none, .ok ()⟩
    | some o =>
      let newOrderStatus : OrderStatus :=
        if newStatus = .picked then .packed
        else if newStatus = .inTransit ∨ newStatus = .outForDelivery then .shipped
        else if newStatus = .delivered then .delivered
        else o.status
      let d2 : Delivery :=
        if newStatus = .delivered then { d1 with actualDeliveryDate := some now } else d1
      let o1 : Order :=
        { o with status := newOrderStatus
                 statusHistory := o.statusHistory ++
                   [⟨newOrderStatus.str, some ("Delivery status: " ++ newStatus.str),
                     some actor⟩] }
      ⟨d2, some o1, .ok ()⟩

/-- Handler of `POST /api/delivery/:id/confirm`.  Forces the delivery to `delivered`,
stamps `actualDeliveryDate`, stores the customer signature and proof image,
pushes a delivery history entry, and — when the parent order exists — sets
`order.status = 'completed'` directly, stamps `order.delivery.actualDate`,
and pushes an order history entry. -/
def confirmDelivery (authorized : Bool) (signature proofImage note : Option String)
    (now actor : Nat) (d : Delivery) (orderOpt : Option Order) : DeliveryOut :=
  if !authorized then
    ⟨d, orderOpt, .error .forbidden⟩
  else
    let d1 : Delivery :=
      { d with status := .delivered
               actualDeliveryDate := some now
               customerSignature := signature
               proofOfDelivery := proofImage
               statusHistory := d.statusHistory ++
                 [⟨.delivered, none, some (note.getD "Delivery confirmed"), now⟩] }
    match orderOpt with
    | none => ⟨d1, none, .ok ()⟩
    | some o =>
      let o1 : Order :=
        { o with status := .completed
                 deliveryActualDate := some now
                 statusHistory := o.statusHistory ++
                   [⟨"completed", some "Order delivered and confirmed", some actor⟩] }
      ⟨d1, some o1, .ok ()⟩

/-- C5.  For an existing delivery with an existing parent order, the status
update projects onto the order exactly as specified: `picked` makes the order
`packed`; `in_transit` and `out_for_delivery` make it `shipped`; `delivered`
makes it `delivered` and stamps `actualDeliveryDate`; and in every case one
history entry is appended to the delivery and one to the order. -/
theorem delivery_status_projects_onto_order (d : Delivery) (o : Order)
    (note location : Option String) (now actor : Nat) :
    ((updateDeliveryStatus true .picked note location now actor d (some o)).delivery.status
          = .picked ∧
      (updateDeliveryStatus true .picked note location now actor d (some o)).order
          = some { o with status := .packed
                          statusHistory := o.statusHistory ++
                            [⟨"packed", some "Delivery status: picked", some actor⟩] } ∧
      (updateDeliveryStatus true .picked note location now actor d (some o)).delivery.statusHistory
          = d.statusHistory ++ [⟨.picked, location, note, now⟩]) ∧
    ((updateDeliveryStatus true .inTransit note location now actor d (some o)).order.map
          Order.status = some .shipped ∧
      (updateDeliveryStatus true .inTransit note location now actor d (some o)).order.map
          Order.statusHistory = some (o.statusHistory ++
            [⟨"shipped", some "Delivery status: in_transit", some actor⟩])) ∧
    ((updateDeliveryStatus true .outForDelivery note location now actor d (some o)).order.map
          Order.status = some .shipped ∧
      (updateDeliveryStatus true .outForDelivery note location now actor d (some o)).order.map
          Order.statusHistory = some (o.statusHistory ++
            [⟨"shipped", some "Delivery status: out_for_delivery", some actor⟩])) ∧
    ((updateDeliveryStatus true .delivered note location now actor d (some o)).order.map
          Order.status = some .delivered ∧
      (updateDeliveryStatus true .delivered note location now actor d (some o)).delivery.actualDeliveryDate
          = some now ∧
      (updateDeliveryStatus true .delivered note location now actor d (some o)).delivery.statusHistory
          = d.statusHistory ++ [⟨.delivered, location, note, now⟩] ∧
      (updateDeliveryStatus true .delivered note location now actor d (some o)).order.map
          Order.statusHistory = some (o.statusHistory ++
            [⟨"delivered", some "Delivery status: delivered", some actor⟩])) := by
  refine ⟨⟨rfl, rfl, rfl⟩, ⟨rfl, rfl⟩, ⟨rfl, rfl⟩, ⟨rfl, rfl, rfl, rfl⟩⟩

/-- C6.  Confirming a delivery with an existing parent order forces the
delivery to `delivered`, stamps its `actualDeliveryDate`, stores signature and
proof of delivery, and sets the order directly to `completed` (not
`delivered`), stamping `order.delivery.actualDate`. -/
theorem confirm_delivery_completes_order (d : Delivery) (o : Order)
    (signature proofImage note : Option String) (now actor : Nat) :
    (confirmDelivery true signature proofImage note now actor d (some o)).delivery.status
        = .delivered ∧
    (confirmDelivery true signature proofImage note now actor d (some o)).delivery.actualDeliveryDate
        = some now ∧
    (confirmDelivery true signature proofImage note now actor d (some o)).delivery.customerSignature
        = signature ∧
    (confirmDelivery true signature proofImage note now actor d (some o)).delivery.proofOfDelivery
        = proofImage ∧
    (confirmDelivery true signature proofImage note now actor d (some o)).order
        = some { o with status := .completed
                        deliveryActualDate := some now
                        statusHistory := o.statusHistory ++
                          [⟨"completed", some "Order delivered and confirmed", some actor⟩] } := by
  refine ⟨rfl, rfl, rfl, rfl, rfl⟩

/-- C9.  `PUT /api/orders/:id/status` (admin), for any target status in the
enum — `cancelled` included — writes only `order.status` and appends one
`statusHistory` entry; every other order field and the whole product
collection (all `stock` / `reservedStock` counters) are untouched, so this
route never releases reservations. -/
theorem admin_status_update_frame (status : OrderStatus) (note : Option String)
    (actor : Nat) (w : World) :
    (adminUpdateStatus status note actor w).products = w.products ∧
    (adminUpdateStatus status note actor w).order.status = status ∧
    (adminUpdateStatus status note actor w).order.statusHistory
        = w.order.statusHistory ++ [⟨status.str, note, some actor⟩] ∧
    (adminUpdateStatus status note actor w).order.user = w.order.user ∧
    (adminUpdateStatus status note actor w).order.orderNumber = w.order.orderNumber ∧
    (adminUpdateStatus status note actor w).order.items = w.order.items ∧
    (adminUpdateStatus status note actor w).order.payment = w.order.payment ∧
    (adminUpdateStatus status note actor w).order.deliveryPartner = w.order.deliveryPartner ∧
    (adminUpdateStatus status note actor w).order.deliveryEstimatedDate
        = w.order.deliveryEstimatedDate ∧
    (adminUpdateStatus status note actor w).order.deliveryActualDate
        = w.order.deliveryActualDate ∧
    (adminUpdateStatus status note actor w).order.totalAmount = w.order.totalAmount ∧
    (adminUpdateStatus status note actor w).order.cancellationReason
        = w.order.cancellationReason := by
  refine ⟨rfl, rfl, rfl, rfl, rfl, rfl, rfl, rfl, rfl, rfl, rfl, rfl⟩

/-- C10.  The `payment.captured` webhook branch, on an order whose payment is
not yet `completed`, updates only the order document (payment fields and
status `paid`): the product collection is returned unchanged, so the reserved
units are never committed to sold on this path — by contrast with
`double_verify_double_decrements_stock`, which shows `/payments/verify`
decrementing both counters. -/
theorem webhook_captured_marks_paid_without_committing_stock
    (paymentId method : String) (now : Nat) (w : World)
    (h : w.order.payment.status ≠ .completed) :
    (webhookCaptured paymentId method now w).products = w.products ∧
    (webhookCaptured paymentId method now w).order.status = .paid ∧
    (webhookCaptured paymentId method now w).order.payment.status = .completed ∧
    (webhookCaptured paymentId method now w).order.payment.razorpayPaymentId
        = some paymentId ∧
    (webhookCaptured paymentId method now w).order.payment.paidAt = some now ∧
    (webhookCaptured paymentId method now w).order.items = w.order.items := by
  refine ⟨?_, ?_, ?_, ?_, ?_, ?_⟩ <;> simp [webhookCaptured, h]

/-- A pending-payment order over a catalog with reserved units, as the
webhook would find it after checkout. -/
def c10World0 : World :=
  ⟨⟨fun _ => ⟨"Bike", 5, 3⟩⟩,
   { user := 1
     orderNumber := some "SON-1-0001"
     items := [⟨0, "Bike", 3, 100⟩]
     status := .created
     payment := Payment.pendingDefault
     deliveryPartner := none
     deliveryEstimatedDate := none
     deliveryActualDate := none
     totalAmount := 300
     statusHistory := [⟨"created", some "Order placed", none⟩]
     cancellationReason := none }⟩

/-- Witness for C10: on the pending order above the webhook marks the order
paid and leaves the product collection untouched. -/
theorem webhook_captured_marks_paid_without_committing_stock_witness :
    (webhookCaptured "p1" "card" 10 c10World0).products = c10World0.products ∧
    (webhookCaptured "p1" "card" 10 c10World0).order.status = .paid ∧
    (webhookCaptured "p1" "card" 10 c10World0).order.payment.status = .completed ∧
    (webhookCaptured "p1" "card" 10 c10World0).order.payment.razorpayPaymentId
        = some "p1" ∧
    (webhookCaptured "p1" "card" 10 c10World0).order.payment.paidAt = some 10 ∧
    (webhookCaptured "p1" "card" 10 c10World0).order.items = c10World0.order.items :=
  webhook_captured_marks_paid_without_committing_stock "p1" "card" 10 c10World0
    (by decide)

end Sonica

namespace Sonica

/-! ## Order number generation (orderSchema.pre('save'), src/models/Order) -/

/-- JS `s.padStart(4, '0')`: left-pad with zeros up to length 4; longer
strings are returned unchanged (padStart never truncates). -/
def padStart4 (s : String) : String :=
  if 4 ≤ s.length then s else String.mk (List.replicate (4 - s.length) '0') ++ s

/-- The number generated by the pre-save hook from `Date.now()` and
`countDocuments()`:
`SON-` + `Date.now()` + `-` + `(count + 1).toString().padStart(4, '0')`. -/
def genOrderNumber (nowMillis count : Nat) : String :=
  "SON-" ++ toString nowMillis ++ "-" ++ padStart4 (toString (count + 1))

/-- The `orderSchema.pre('save')` hook: generate an order number only when
the document does not already carry one (`if (!this.orderNumber)`). -/
def preSave (nowMillis count : Nat) (o : Order) : Order :=
  match o.orderNumber with
  | none => { o with orderNumber := some (genOrderNumber nowMillis count) }
  | some _ => o

/-- The order numbers present in the stored collection. -/
def orderNumbers (coll : List Order) : List String :=
  coll.filterMap (fun o => o.orderNumber)

/-- Saving a new order document: the pre-save hook runs with
`count = countDocuments()`, then the schema's `unique: true` index on
`orderNumber` rejects the write with a duplicate-key error if the generated
number is already stored. -/
def saveNewOrder (nowMillis : Nat) (coll : List Order) (o : Order) :
    Except ApiErr (List Order) :=
  match (preSave nowMillis coll.length o).orderNumber with
  | some n =>
    if n ∈ orderNumbers coll then .error .duplicateKey
    else .ok (coll ++ [preSave nowMillis coll.length o])
  | none => .ok (coll ++ [preSave nowMillis coll.length o])

/-- Characters strictly after the last dash of a character list. -/
def afterLastDash (l : List Char) : List Char :=
  l.foldl (fun acc c => if c = '-' then [] else acc ++ [c]) []

/-- The sequence component of an order number: the substring after the last
dash. -/
def seqPart (s : String) : String := String.mk (afterLastDash s.data)

/-- C7, counterexample.  The claimed `SON-<epochMillis>-<4-digit-sequence>`
format fails once the collection holds 9999 orders: `padStart(4, '0')` never
truncates, so the 10000th order's sequence component is the 5-digit
`"10000"`. -/
theorem orderNumber_sequence_runs_past_four_digits :
    genOrderNumber 0 9999 = "SON-0-10000" ∧
    seqPart (genOrderNumber 0 9999) = "10000" ∧
    (seqPart (genOrderNumber 0 9999)).length ≠ 4 := by decide

/-- C7, amended.  Every generated order number is
`SON-<epochMillis>-<sequence>` where the sequence is `count + 1` zero-padded
to AT LEAST four digits; the number is assigned exactly once — a document
that already carries one is saved completely unchanged by the hook — and a
save that passes the `unique` index check keeps the stored numbers
duplicate-free. -/
theorem orderNumber_assigned_once_padded_and_unique
    (nowMillis count : Nat) (o : Order) (coll : List Order) :
    (genOrderNumber nowMillis count
        = "SON-" ++ toString nowMillis ++ "-" ++ padStart4 (toString (count + 1))) ∧
    4 ≤ (padStart4 (toString (count + 1))).length ∧
    (o.orderNumber = none →
      (preSave nowMillis count o).orderNumber = some (genOrderNumber nowMillis count)) ∧
    (∀ x, o.orderNumber = some x → preSave nowMillis count o = o) ∧
    ((orderNumbers coll).Nodup → ∀ coll',
        saveNewOrder nowMillis coll o = .ok coll' → (orderNumbers coll').Nodup) := by
  refine ⟨rfl, ?_, ?_, ?_, ?_⟩
  · unfold padStart4
    split
    · assumption
    · rw [String.length_append, String.length_mk, List.length_replicate]
      omega
  · intro h; simp [preSave, h]
  · intro x h; simp [preSave, h]
  · intro hnd coll' hsave
    unfold saveNewOrder at hsave
    cases hnum : (preSave nowMillis coll.length o).orderNumber with
    | none =>
      rw [hnum] at hsave
      simp only [Except.ok.injEq] at hsave
      subst hsave
      simpa [orderNumbers, List.filterMap_append, hnum] using hnd
    | some n =>
      rw [hnum] at hsave
      by_cases hmem : n ∈ orderNumbers coll
      · simp [hmem] at hsave
      · simp only [hmem, if_false, Except.ok.injEq] at hsave
        subst hsave
        have hsplit : orderNumbers (coll ++ [preSave nowMillis coll.length o])
            = orderNumbers coll ++ [n] := by
          simp [orderNumbers, List.filterMap_append, hnum]
        rw [hsplit, List.nodup_append]
        exact ⟨hnd, List.nodup_singleton n,
          by simpa [List.disjoint_singleton] using hmem⟩

/-- A fresh, not yet numbered order document. -/
def c7Fresh : Order :=
  { user := 1
    orderNumber := none
    items := []
    status := .created
    payment := Payment.pendingDefault
    deliveryPartner := none
    deliveryEstimatedDate := none
    deliveryActualDate := none
    totalAmount := 0
    statusHistory := []
    cancellationReason := none }

/-- The same document after its first save at `Date.now() = 5` into an empty
collection. -/
def c7Saved : Order := { c7Fresh with orderNumber := some "SON-5-0001" }

/-- Witness for the amended C7: the first save into an empty collection
assigns `SON-5-0001`, a second save leaves the number untouched, and the
stored collection stays duplicate-free. -/
theorem orderNumber_assigned_once_padded_and_unique_witness :
    genOrderNumber 5 0 = "SON-5-0001" ∧
    (preSave 5 0 c7Fresh).orderNumber = some (genOrderNumber 5 0) ∧
    4 ≤ (padStart4 (toString (0 + 1))).length ∧
    preSave 7 3 c7Saved = c7Saved ∧
    saveNewOrder 5 [] c7Fresh = .ok [c7Saved] ∧
    (orderNumbers [c7Saved]).Nodup := by
  have h := orderNumber_assigned_once_padded_and_unique 5 0 c7Fresh ([] : List Order)
  have h2 := orderNumber_assigned_once_padded_and_unique 7 3 c7Saved ([] : List Order)
  exact ⟨by decide, h.2.2.1 rfl, h.2.1, h2.2.2.2.1 "SON-5-0001" rfl, by decide,
    h.2.2.2.2 (by decide) [c7Saved] (by decide)⟩

end Sonica

namespace Sonica

/-! ## Review aggregation (src/routes/reviews.js)

The product-review and delivery-review recomputations are line-for-line
identical up to the target field names (`Product.ratings` vs `User.rating`),
so one generic target is modelled.  A stored `average` of `none` models the
JS `NaN` that `0/0` produces and that Mongoose would store. -/

/-- The fields of a Review document the rating recomputation reads. -/
structure ReviewDoc where
  user : Nat
  rating : Rat
  isApproved : Bool
deriving DecidableEq, Repr

/-- Ratings of the `isApproved: true` reviews of the target, in order
(the `Review.find({ ..., isApproved: true })` result). -/
def approvedRatings (rs : List ReviewDoc) : List Rat :=
  (rs.filter (fun r => r.isApproved)).map (fun r => r.rating)

/-- JS `reviews.reduce((sum, r) => sum + r.rating, 0)`. -/
def jsSum (l : List Rat) : Rat := l.foldl (fun s r => s + r) 0

/-- JS `Math.round(x * 10) / 10` (Math.round is floor(x + 1/2), which
agrees with Mathlib's `round`). -/
def roundTo1 (x : Rat) : Rat := ((round (x * 10) : Int) : Rat) / 10

/-- The recomputation of the create and update paths, which divide by
`reviews.length` with NO zero-length guard: on an empty list `0/0` is the JS
`NaN`, modelled as `none`. -/
def recomputeNoGuard (rs : List ReviewDoc) : Option Rat :=
  if (approvedRatings rs).length = 0 then none
  else some (roundTo1 (jsSum (approvedRatings rs) / ((approvedRatings rs).length : Rat)))

/-- The recomputation of the delete and moderate paths, which guard with
`reviews.length > 0 ? sum / length : 0`. -/
def recomputeGuarded (rs : List ReviewDoc) : Rat :=
  roundTo1 (if 0 < (approvedRatings rs).length
    then jsSum (approvedRatings rs) / ((approvedRatings rs).length : Rat) else 0)

/-- The rating aggregate stored on the target document
(`Product.ratings` / `User.rating`): `average` and `count`. -/
structure TargetRating where
  average : Option Rat
  count : Nat
deriving DecidableEq, Repr

/-- Modelled from the spec (for comparison with the code's recomputations):
the arithmetic mean of the approved ratings rounded to one decimal, and 0
when no approved review remains. -/
def specAverage (rs : List ReviewDoc) : Rat :=
  if (approvedRatings rs).length = 0 then 0
  else roundTo1 (jsSum (approvedRatings rs) / ((approvedRatings rs).length : Rat))

/-- Handler of `POST /api/reviews` (product variant, product found): rejects a second
review by the same user, otherwise appends an approved review (isApproved
defaults to true) and writes back both `ratings.average` (unguarded formula)
and `ratings.count`. -/
def createReview (u : Nat) (rating : Rat) (rs : List ReviewDoc) (t : TargetRating) :
    Except ApiErr (List ReviewDoc × TargetRating) :=
  if rs.any (fun r => r.user = u) then .error .duplicateReview
  else
    .ok (rs ++ [⟨u, rating, true⟩],
      ⟨recomputeNoGuard (rs ++ [⟨u, rating, true⟩]),
       (approvedRatings (rs ++ [⟨u, rating, true⟩])).length⟩)

/-- Handler of `PUT /api/reviews/:id` (owner): `review.rating = rating || review.rating`
(a falsy 0 keeps the old rating), then recomputes with the UNGUARDED formula
and writes back ONLY `ratings.average` — the count is not rewritten
(`t` is the target's previous aggregate, carried through). -/
def updateReview (i : Nat) (newRating : Option Rat) (rs : List ReviewDoc)
    (t : TargetRating) : List ReviewDoc × TargetRating :=
  match rs[i]? with
  | none => (rs, t)
  | some r =>
    let newR : Rat :=
      match newRating with
      | none => r.rating
      | some x => if x = 0 then r.rating else x
    (rs.set i { r with rating := newR },
     { t with average := recomputeNoGuard (rs.set i { r with rating := newR }) })

/-- Handler of `DELETE /api/reviews/:id` (owner or admin): removes the review, then
writes back average (guarded formula) and count. -/
def deleteReview (i : Nat) (rs : List ReviewDoc) (t : TargetRating) :
    List ReviewDoc × TargetRating :=
  match rs[i]? with
  | none => (rs, t)
  | some _ =>
    (rs.eraseIdx i,
     ⟨some (recomputeGuarded (rs.eraseIdx i)), (approvedRatings (rs.eraseIdx i)).length⟩)

/-- Handler of `PUT /api/reviews/:id/moderate` (admin): sets `isApproved`, then writes
back average (guarded formula) and count. -/
def moderateReview (i : Nat) (appr : Bool) (rs : List ReviewDoc) (t : TargetRating) :
    List ReviewDoc × TargetRating :=
  match rs[i]? with
  | none => (rs, t)
  | some r =>
    (rs.set i { r with isApproved := appr },
     ⟨some (recomputeGuarded (rs.set i { r with isApproved := appr })),
      (approvedRatings (rs.set i { r with isApproved := appr })).length⟩)

/-- The guarded recomputation agrees with the specified average everywhere
(including the empty case, where both give 0). -/
theorem recomputeGuarded_eq_spec (rs : List ReviewDoc) :
    recomputeGuarded rs = specAverage rs := by
  unfold recomputeGuarded specAverage
  rcases Nat.eq_zero_or_pos (approvedRatings rs).length with h | h
  · simp [h, roundTo1]
  · simp [h, h.ne']

/-- C8, amended.  After a create, delete or moderate, the stored average is
the rounded arithmetic mean of the approved ratings (0 when none remain) and
the stored count is the number of approved reviews.  An update leaves the
count untouched and stores the rounded mean while at least one approved
review remains — but when zero approved reviews remain it stores NaN
(the unguarded `0/0`), not the specified 0. -/
theorem review_mutations_recompute_target_rating
    (u : Nat) (rating : Rat) (i : Nat) (newRating : Option Rat) (appr : Bool)
    (rs : List ReviewDoc) (t : TargetRating) :
    (∀ rs' t', createReview u rating rs t = .ok (rs', t') →
        t'.average = some (specAverage rs') ∧
        t'.count = (approvedRatings rs').length) ∧
    (∀ r, rs[i]? = some r →
        ((deleteReview i rs t).2.average
            = some (specAverage (deleteReview i rs t).1) ∧
         (deleteReview i rs t).2.count
            = (approvedRatings (deleteReview i rs t).1).length) ∧
        ((moderateReview i appr rs t).2.average
            = some (specAverage (moderateReview i appr rs t).1) ∧
         (moderateReview i appr rs t).2.count
            = (approvedRatings (moderateReview i appr rs t).1).length) ∧
        ((updateReview i newRating rs t).2.count = t.count ∧
         ((approvedRatings (updateReview i newRating rs t).1).length ≠ 0 →
            (updateReview i newRating rs t).2.average
              = some (specAverage (updateReview i newRating rs t).1)) ∧
         ((approvedRatings (updateReview i newRating rs t).1).length = 0 →
            (updateReview i newRating rs t).2.average = none))) := by
  constructor
  · intro rs' t' h
    unfold createReview at h
    by_cases hdup : rs.any (fun r => r.user = u)
    · simp [hdup] at h
    · simp only [hdup, if_false] at h
      injection h with hpair
      rw [Prod.ext_iff] at hpair
      obtain ⟨h1, h2⟩ := hpair
      subst h1
      subst h2
      have hlen : (approvedRatings (rs ++ [⟨u, rating, true⟩])).length ≠ 0 := by
        simp [approvedRatings, List.filter_append]
      constructor
      · simp [recomputeNoGuard, specAverage, hlen]
      · rfl
  · intro r hr
    refine ⟨⟨?_, ?_⟩, ⟨?_, ?_⟩, ?_, ?_, ?_⟩
    · simp [deleteReview, hr, recomputeGuarded_eq_spec]
    · simp [deleteReview, hr]
    · simp [moderateReview, hr, recomputeGuarded_eq_spec]
    · simp [moderateReview, hr]
    · simp [updateReview, hr]
    · intro hlen
      simp only [updateReview, hr] at hlen ⊢
      simp [recomputeNoGuard, specAverage, hlen]
    · intro hlen
      simp only [updateReview, hr] at hlen ⊢
      simp [recomputeNoGuard, hlen]

/-- A fresh product (average defaults to 0, count 0) receives one 4-star
review. -/
def c8Step1 : List ReviewDoc × TargetRating :=
  match createReview 1 4 [] ⟨some 0, 0⟩ with
  | .ok p => p
  | .error _ => ([], ⟨some 0, 0⟩)

/-- An admin then moderates that review to `isApproved: false`. -/
def c8Step2 : List ReviewDoc × TargetRating :=
  moderateReview 0 false c8Step1.1 c8Step1.2

/-- The owner then edits the (now unapproved) review's rating to 5. -/
def c8Step3 : List ReviewDoc × TargetRating :=
  updateReview 0 (some 5) c8Step2.1 c8Step2.2

/-- C8, counterexample.  On the reachable state produced by
create → moderate-to-rejected, an owner update recomputes over ZERO approved
reviews with the unguarded formula: the stored average becomes NaN
(modelled `none`) instead of the 0 the claim specifies. -/
theorem review_update_with_zero_approved_stores_NaN :
    c8Step3.1 = [⟨1, 5, false⟩] ∧
    (approvedRatings c8Step3.1).length = 0 ∧
    c8Step3.2.average = none ∧
    c8Step3.2.average ≠ some 0 := by decide

/-- The review list after user 2 adds a 5-star review next to user 1's
4-star review. -/
def c8wRs : List ReviewDoc := [⟨1, 4, true⟩, ⟨2, 5, true⟩]

/-- The aggregate the create path stores for `c8wRs`. -/
def c8wT : TargetRating := ⟨recomputeNoGuard c8wRs, (approvedRatings c8wRs).length⟩

/-- Witness for the amended C8 on a concrete one-review state: create,
delete, moderate and update all store the specified average, and the update
keeps the previous count. -/
theorem review_mutations_recompute_target_rating_witness :
    createReview 2 5 [⟨1, 4, true⟩] ⟨some 4, 1⟩ = .ok (c8wRs, c8wT) ∧
    c8wT.average = some (specAverage c8wRs) ∧
    c8wT.count = (approvedRatings c8wRs).length ∧
    (deleteReview 0 [⟨1, 4, true⟩] ⟨some 4, 1⟩).2.average
        = some (specAverage (deleteReview 0 [⟨1, 4, true⟩] ⟨some 4, 1⟩).1) ∧
    (moderateReview 0 false [⟨1, 4, true⟩] ⟨some 4, 1⟩).2.average
        = some (specAverage (moderateReview 0 false [⟨1, 4, true⟩] ⟨some 4, 1⟩).1) ∧
    (updateReview 0 (some 3) [⟨1, 4, true⟩] ⟨some 4, 1⟩).2.count = 1 ∧
    (updateReview 0 (some 3) [⟨1, 4, true⟩] ⟨some 4, 1⟩).2.average
        = some (specAverage (updateReview 0 (some 3) [⟨1, 4, true⟩] ⟨some 4, 1⟩).1) := by
  have h := review_mutations_recompute_target_rating 2 5 0 (some 3) false
    [⟨1, 4, true⟩] ⟨some 4, 1⟩
  have h1 : createReview 2 5 [⟨1, 4, true⟩] ⟨some 4, 1⟩ = .ok (c8wRs, c8wT) := rfl
  have hc := h.1 c8wRs c8wT h1
  have hr := h.2 ⟨1, 4, true⟩ rfl
  exact ⟨h1, hc.1, hc.2, hr.1.1, hr.2.1.1, hr.2.2.1, hr.2.2.2.1 (by decide)⟩

end Sonica
